import Mathlib

/-!
Verification development for the `mongoose-brzan-sequence` plugin
(`src/index.js`): a Mongoose plugin that assigns an auto-incremented,
formatted sequence value to a designated field, backed by a `_Counter`
collection and a single atomic `findOneAndUpdate` with an aggregation
pipeline.

The embedding models:
  * BSON-like values (`BVal`) and the MongoDB aggregation-pipeline update
    used by `updateCounter` (the `$set`/`$cond`/`$add` pipeline at
    src/index.js lines 133-147), including MongoDB's documented upsert
    semantics for pipeline updates: when no document matches the filter,
    the pipeline is applied to a base document built from the equality
    clauses of the filter (never to a null root);
  * JavaScript option values (`JSVal`) and `parseOptions` with the
    `optionDefinitions` table (lines 15-52, 83-105);
  * the value formatter `generateFormattedValue` (lines 114-121);
  * the pre-save hook and `updateCounter` orchestration (lines 128-153,
    191-198), with an explicit `storeFails` flag modelling the external
    storage engine rejecting the atomic call;
  * the schema-level `plugin` registration (lines 160-199).
-/

/-- BSON-like values stored in the `_Counter` collection and returned by
`findOneAndUpdate`.  `bnull` is BSON null (also the result of `$add` on a
missing or null operand). -/
inductive BVal where
  | bnull : BVal
  | bint : Int → BVal
  | bstr : String → BVal
  | bdoc : List (String × BVal) → BVal
deriving Repr

/-- Field access on a BSON document; `none` models a missing field. -/
def getFieldB : BVal → String → Option BVal
  | .bdoc fs, k => fs.lookup k
  | _, _ => none

/-- The aggregation expression `$eq: [x, null]` (true exactly on null; a
document root is never null). -/
def mongoIsNull : BVal → Bool
  | .bnull => true
  | _ => false

/-- The aggregation expression `$add: [countField, i]`: MongoDB's `$add`
returns null when an operand is null or refers to a missing field. -/
def mongoAddCount : Option BVal → Int → BVal
  | some (.bint n), i => .bint (n + i)
  | _, _ => .bnull

/-- Document state visible to the hook: `isNew` (never persisted),
the set of modified paths, and the document's string-valued fields. -/
structure DocStateRaw where
  isNew : Bool
  modified : List String
  fields : List (String × String)

/-- A resolved prefix/suffix option: a static string or a function of the
document (whose JS result may be null/undefined, modelled by `none`). -/
inductive AffixSpec where
  | staticStr : String → AffixSpec
  | fnSpec : (DocStateRaw → Option String) → AffixSpec

/-- The settings record produced by option parsing, as consumed by
`updateCounter` / `generateFormattedValue` (model, field, startAt,
incrementBy, prefix, suffix). -/
structure Settings where
  model : String
  field : String
  startAt : Int
  incrementBy : Int
  prefixVal : AffixSpec
  suffixVal : AffixSpec

/-- Resolve a prefix/suffix: a static value is used as-is, a function is
invoked on the document (src/index.js lines 115-118). -/
def resolveAffix : AffixSpec → DocStateRaw → Option String
  | .staticStr s, _ => some s
  | .fnSpec f, d => f d

/-- JavaScript template-literal rendering of the count value interpolated
in `generateFormattedValue`; `none` is JS undefined. -/
def jsRenderCount : Option BVal → String
  | none => "undefined"
  | some .bnull => "null"
  | some (.bint n) => toString n
  | some (.bstr s) => s
  | some (.bdoc _) => "[object Object]"

/-- src/index.js lines 114-121: resolve prefix and suffix (null/undefined
coalesced to the empty string by `?? ''`), and concatenate
prefix ++ count ++ suffix. -/
def generateFormattedValue (s : Settings) (d : DocStateRaw) (count : Option BVal) : String :=
  (resolveAffix s.prefixVal d).getD "" ++ jsRenderCount count ++ (resolveAffix s.suffixVal d).getD ""

/-- The filter `{ model: settings.model, field: settings.field }` matched
against a stored counter document. -/
def matchesFilter (s : Settings) (d : BVal) : Bool :=
  (match getFieldB d "model" with
    | some (.bstr m) => m == s.model
    | _ => false)
  && (match getFieldB d "field" with
    | some (.bstr f) => f == s.field
    | _ => false)

/-- The update pipeline of src/index.js lines 133-147 applied to the
current document `root`:
`$set` model and field, and set count to
`$cond{ if: $eq[$$ROOT, null], then: startAt, else: $add[$count, incrementBy] }`. -/
def applyUpdatePipeline (s : Settings) (root : BVal) : BVal :=
  .bdoc [("model", .bstr s.model), ("field", .bstr s.field),
    ("count",
      if mongoIsNull root then .bint s.startAt
      else mongoAddCount (getFieldB root "count") s.incrementBy)]

/-- One pass over the stored counter documents: update the first match
with the pipeline, returning the post-update document and the new store. -/
def findOneAndUpdateGo (s : Settings) : List BVal → Option (BVal × List BVal)
  | [] => none
  | d :: rest =>
    if matchesFilter s d then
      some (applyUpdatePipeline s d, applyUpdatePipeline s d :: rest)
    else
      match findOneAndUpdateGo s rest with
      | some pr => some (pr.1, d :: pr.2)
      | none => none

/-- MongoDB's upsert base document for a pipeline update: built from the
equality clauses of the filter (the pipeline is never applied to null). -/
def upsertBase (s : Settings) : BVal :=
  .bdoc [("model", .bstr s.model), ("field", .bstr s.field)]

/-- `Counter.collection.findOneAndUpdate(filter, updatePipeline,
{ returnDocument: 'after', upsert: true })` (src/index.js line 150):
if a document matches, apply the pipeline to it and return the post-update
document; otherwise upsert: apply the pipeline to the base document built
from the filter's equality clauses, insert, and return it. -/
def findOneAndUpdate (s : Settings) (store : List BVal) : BVal × List BVal :=
  match findOneAndUpdateGo s store with
  | some pr => pr
  | none =>
    let inserted := applyUpdatePipeline s (upsertBase s)
    (inserted, store ++ [inserted])

/-- Error taxonomy of the plugin's thrown errors. -/
inductive PluginError where
  | configuration : String → PluginError
  | notInitialized : PluginError
  | fieldConflict : String → PluginError
  | storeUnavailable : PluginError
  | immutableField : String → PluginError
deriving Repr, DecidableEq

/-- Assignment `doc[settings.field] = v`. -/
def setField (d : DocStateRaw) (k v : String) : DocStateRaw :=
  { d with fields := (k, v) :: d.fields.filter (fun p => !(p.1 == k)) }

/-- src/index.js lines 128-153 (`updateCounter`): return immediately if the
document is not new; otherwise run the atomic findOneAndUpdate and assign
the formatted value of `result.value.count` to the document's field.
`storeFails` models the external storage engine rejecting the atomic call
(the awaited promise rejects), in which case the error propagates and
nothing is assigned. -/
def updateCounter (storeFails : Bool) (s : Settings) (d : DocStateRaw) (store : List BVal) :
    Except PluginError Unit × DocStateRaw × List BVal :=
  if !d.isNew then (.ok (), d, store)
  else if storeFails then (.error .storeUnavailable, d, store)
  else
    let r := findOneAndUpdate s store
    (.ok (), setField d s.field (generateFormattedValue s d (getFieldB r.1 "count")), r.2)

/-- src/index.js lines 191-198: the pre-save hook.  If the target field was
manually modified on a non-new document, throw the immutable-field error
before any allocation; otherwise run `updateCounter`. -/
def preSaveHook (storeFails : Bool) (s : Settings) (d : DocStateRaw) (store : List BVal) :
    Except PluginError Unit × DocStateRaw × List BVal :=
  if d.modified.contains s.field && !d.isNew then
    (.error (.immutableField s.field), d, store)
  else
    updateCounter storeFails s d store

/-- JavaScript option values handed to the plugin. -/
inductive JSVal where
  | undefVal : JSVal
  | jsnull : JSVal
  | num : Int → JSVal
  | str : String → JSVal
  | boolean : Bool → JSVal
  | func : (DocStateRaw → Option String) → JSVal
  | obj : List (String × JSVal) → JSVal

/-- JavaScript `typeof`. -/
def typeofJS : JSVal → String
  | .undefVal => "undefined"
  | .jsnull => "object"
  | .num _ => "number"
  | .str _ => "string"
  | .boolean _ => "boolean"
  | .func _ => "function"
  | .obj _ => "object"

/-- JavaScript strict equality against a string literal. -/
def jsStrictEqStr : JSVal → String → Bool
  | .str s, t => s == t
  | _, _ => false

/-- One entry of the `optionDefinitions` table (src/index.js lines 15-52).
`dflt` is the `default` property (absent, i.e. undefined, for the required
keys). -/
structure OptionDef where
  required : Bool
  dflt : JSVal
  validate : JSVal → Bool
  errMsg : String

/-- src/index.js lines 15-52: the option validation table, in source order. -/
def optionDefinitions : List (String × OptionDef) :=
  [ ("model",
      { required := true, dflt := .undefVal,
        validate := fun v => typeofJS v == "string",
        errMsg := "must be a string" }),
    ("field",
      { required := true, dflt := .undefVal,
        validate := fun v => typeofJS v == "string" && !jsStrictEqStr v "_id",
        errMsg := "must be a string and not _id" }),
    ("startAt",
      { required := false, dflt := .num 0,
        validate := fun v => typeofJS v == "number",
        errMsg := "must be a number" }),
    ("incrementBy",
      { required := false, dflt := .num 1,
        validate := fun v => typeofJS v == "number",
        errMsg := "must be a number" }),
    ("prefix",
      { required := false, dflt := .str "",
        validate := fun v => typeofJS v == "string" || typeofJS v == "function",
        errMsg := "must be a string or function" }),
    ("suffix",
      { required := false, dflt := .str "",
        validate := fun v => typeofJS v == "string" || typeofJS v == "function",
        errMsg := "must be a string or function" }) ]

/-- JavaScript `key in options` on an object's own fields. -/
def hasKey (fields : List (String × JSVal)) (k : String) : Bool :=
  fields.any (fun p => p.1 == k)

/-- JavaScript `options[key]`: undefined when the key is absent. -/
def lookupJS (fields : List (String × JSVal)) (k : String) : JSVal :=
  match fields.lookup k with
  | some v => v
  | none => .undefVal

/-- Is a JS value `undefined`? -/
def isUndefJS : JSVal → Bool
  | .undefVal => true
  | _ => false

/-- The `for (const [key, def] of Object.entries(optionDefinitions))` loop
of src/index.js lines 89-103: throw on a missing required key, throw on a
supplied (non-undefined) value failing its validator, otherwise record the
supplied value or the declared default. -/
def parseLoop (fields : List (String × JSVal)) :
    List (String × OptionDef) → Except PluginError (List (String × JSVal))
  | [] => .ok []
  | kd :: rest =>
    if kd.2.required && !hasKey fields kd.1 then
      .error (.configuration (kd.1 ++ " is required"))
    else
      let value := lookupJS fields kd.1
      if !isUndefJS value then
        if !kd.2.validate value then
          .error (.configuration (kd.1 ++ " " ++ kd.2.errMsg))
        else
          match parseLoop fields rest with
          | .ok parsed => .ok ((kd.1, value) :: parsed)
          | .error e => .error e
      else
        match parseLoop fields rest with
        | .ok parsed => .ok ((kd.1, kd.2.dflt) :: parsed)
        | .error e => .error e

/-- src/index.js lines 83-105 (`parseOptions`): reject a non-object or null
options value (`typeof options !== 'object' || options === null`), then run
the validation loop. -/
def parseOptions (options : JSVal) : Except PluginError (List (String × JSVal)) :=
  match options with
  | .obj fields => parseLoop fields optionDefinitions
  | _ => .error (.configuration "Options must be an object")

/-- Schema state touched by `plugin`: declared paths, number of registered
pre-save hooks, and declared unique indexes. -/
structure SchemaModel where
  paths : List String
  preSaveHooks : Nat
  indexes : List String
deriving Repr, DecidableEq

/-- JavaScript coercion of a value used as a property key
(`schema.add({ [settings.field]: ... })`). -/
def jsPropKey : JSVal → String
  | .str s => s
  | .undefVal => "undefined"
  | .jsnull => "null"
  | .num n => toString n
  | .boolean b => toString b
  | .func _ => "function"
  | .obj _ => "[object Object]"

/-- src/index.js lines 160-199 (`plugin`): throw if the counter model was
never initialized; parse the options; throw if the schema already declares
the target field; otherwise add the field, its unique index, and the
pre-save hook.  `initialized` models whether `initialize(connection)` has
set the module-level `Counter`. -/
def plugin (initialized : Bool) (schema : SchemaModel) (options : JSVal) :
    Except PluginError SchemaModel :=
  if !initialized then .error .notInitialized
  else
    match parseOptions options with
    | .error e => .error e
    | .ok parsed =>
      let fieldKey := jsPropKey (lookupJS parsed "field")
      if schema.paths.contains fieldKey then .error (.fieldConflict fieldKey)
      else
        .ok { paths := schema.paths ++ [fieldKey],
              preSaveHooks := schema.preSaveHooks + 1,
              indexes := schema.indexes ++ [fieldKey] }

/-- `N` successive document creations against the same counter: iterate the
atomic allocation, collecting each returned `result.value.count`. -/
def allocateN (s : Settings) (store : List BVal) : Nat → List (Option BVal) × List BVal
  | 0 => ([], store)
  | Nat.succ n =>
    let r := findOneAndUpdate s store
    let rest := allocateN s r.2 n
    (getFieldB r.1 "count" :: rest.1, rest.2)

/-! Concrete sample data used by the claim theorems and witnesses. -/

/-- A plain settings record: counter "Model"/"seq", startAt 0, incrementBy 1,
empty prefix and suffix. -/
def demoSettings : Settings := ⟨"Model", "seq", 0, 1, .staticStr "", .staticStr ""⟩

/-- Same counter key but seeded at 5. -/
def demoSettingsStart5 : Settings := ⟨"Model", "seq", 5, 1, .staticStr "", .staticStr ""⟩

/-- A fresh (new, unmodified, empty) document. -/
def demoDoc : DocStateRaw := ⟨true, [], []⟩

/-- C1: the claim says N creations on a fresh (owner, field) counter yield
counts forming exactly the arithmetic set from startAt.  Evaluating the
code at the failing input (two creations, startAt 0, incrementBy 1, no
existing counter record): the `$eq: [$$ROOT, null]` branch of the pipeline
never fires (the upsert root is the filter-derived base document, not
null), so `$add` on the missing/null count yields null on both
allocations — not the claimed set. -/
theorem claim1_firstN_allocations_all_null :
    (allocateN demoSettings [] 2).1 = [some .bnull, some .bnull]
    ∧ (allocateN demoSettings [] 2).1 ≠ [some (.bint 0), some (.bint 1)] := by
  have h1 : (allocateN demoSettings [] 2).1 = [some .bnull, some .bnull] := rfl
  refine ⟨h1, ?_⟩
  rw [h1]
  simp

/-- C2: the claim says the first allocation on an absent counter record
seeds the record at startAt and returns startAt.  Evaluating the code with
startAt = 5 and no existing record: the returned count is null (not 5) and
the inserted record is seeded with a null count (not 5). -/
theorem claim2_first_allocation_not_startAt :
    getFieldB (findOneAndUpdate demoSettingsStart5 []).1 "count" = some .bnull
    ∧ getFieldB (findOneAndUpdate demoSettingsStart5 []).1 "count" ≠ some (.bint 5)
    ∧ (findOneAndUpdate demoSettingsStart5 []).2 =
        [.bdoc [("model", .bstr "Model"), ("field", .bstr "seq"), ("count", .bnull)]] := by
  have h1 : getFieldB (findOneAndUpdate demoSettingsStart5 []).1 "count" = some .bnull := rfl
  refine ⟨h1, ?_, rfl⟩
  rw [h1]
  simp

/-- C3: on an already-persisted (not new) document whose sequence field was
manually modified, the pre-save hook fails with the immutable-field error
before any allocation: the counter store and the document are returned
unchanged. -/
theorem claim3_immutable_field_guard (storeFails : Bool) (s : Settings) (d : DocStateRaw)
    (store : List BVal) (hnew : d.isNew = false)
    (hmod : d.modified.contains s.field = true) :
    preSaveHook storeFails s d store = (.error (.immutableField s.field), d, store) := by
  unfold preSaveHook
  rw [hnew, hmod]
  rfl

/-- Witness for C3 at a concrete persisted document with a modified
sequence field. -/
theorem claim3_witness :
    preSaveHook false demoSettings ⟨false, ["seq"], [("seq", "X")]⟩ [] =
      (.error (.immutableField "seq"), ⟨false, ["seq"], [("seq", "X")]⟩, []) :=
  claim3_immutable_field_guard false demoSettings ⟨false, ["seq"], [("seq", "X")]⟩ [] rfl rfl

/-- C4: on a document that is not newly created, `updateCounter` is a
no-op: no allocation is performed (the counter store is unchanged) and the
document (hence its sequence field) is unchanged, whatever else changed. -/
theorem claim4_not_new_noop (storeFails : Bool) (s : Settings) (d : DocStateRaw)
    (store : List BVal) (hnew : d.isNew = false) :
    updateCounter storeFails s d store = (.ok (), d, store) := by
  simp [updateCounter, hnew]

/-- Witness for C4 at a concrete persisted document with other modified
fields. -/
theorem claim4_witness :
    updateCounter false demoSettings ⟨false, ["name"], [("name", "n"), ("seq", "7")]⟩ [] =
      (.ok (), ⟨false, ["name"], [("name", "n"), ("seq", "7")]⟩, []) :=
  claim4_not_new_noop false demoSettings ⟨false, ["name"], [("name", "n"), ("seq", "7")]⟩ [] rfl

/-- C5: the formatter returns resolved-prefix ++ decimal count ++
resolved-suffix, where a null/absent resolved prefix or suffix (a resolver
returning none) contributes the empty string; count 7 with prefix "CT-"
and suffix "-US" gives "CT-7-US", and the defaults give "7". -/
theorem claim5_formatter_composition :
    (∀ (s : Settings) (d : DocStateRaw) (c : Option BVal),
      generateFormattedValue s d c =
        (resolveAffix s.prefixVal d).getD "" ++ jsRenderCount c
          ++ (resolveAffix s.suffixVal d).getD "")
    ∧ (∀ n : Int, jsRenderCount (some (.bint n)) = toString n)
    ∧ generateFormattedValue ⟨"M", "f", 0, 1, .staticStr "CT-", .staticStr "-US"⟩
        demoDoc (some (.bint 7)) = "CT-7-US"
    ∧ generateFormattedValue ⟨"M", "f", 0, 1, .staticStr "", .staticStr ""⟩
        demoDoc (some (.bint 7)) = "7"
    ∧ generateFormattedValue ⟨"M", "f", 0, 1, .fnSpec (fun _ => none), .fnSpec (fun _ => none)⟩
        demoDoc (some (.bint 7)) = "7" :=
  ⟨fun _ _ _ => rfl, fun _ => rfl, rfl, rfl, rfl⟩

/-- C7: on a new document, if the atomic allocation against the counter
store fails, the failure propagates out of the pre-save hook (aborting the
save) and the document and counter store are returned unchanged: no
partial, fallback, missing, null, or stale value is written to the field. -/
theorem claim7_failed_allocation_aborts (s : Settings) (d : DocStateRaw)
    (store : List BVal) (hnew : d.isNew = true) :
    preSaveHook true s d store = (.error .storeUnavailable, d, store) := by
  unfold preSaveHook updateCounter
  rw [hnew]
  simp

/-- Witness for C7 at a concrete new document. -/
theorem claim7_witness :
    preSaveHook true demoSettings demoDoc [] = (.error .storeUnavailable, demoDoc, []) :=
  claim7_failed_allocation_aborts demoSettings demoDoc [] rfl

/-- C10: on a new document, the pre-save hook raises no error even if the
target field was manually set (the immutability guard requires a non-new
document), and the field is overwritten with the formatted value of the
freshly allocated count. -/
theorem claim10_new_doc_overwrites_manual_value (s : Settings) (d : DocStateRaw)
    (store : List BVal) (hnew : d.isNew = true) :
    preSaveHook false s d store =
      (.ok (),
       setField d s.field
         (generateFormattedValue s d (getFieldB (findOneAndUpdate s store).1 "count")),
       (findOneAndUpdate s store).2) := by
  unfold preSaveHook updateCounter
  rw [hnew]
  simp

/-- Witness for C10: a new document whose "seq" field was manually set to
"MANUAL" saves without error and ends up with the freshly allocated
formatted value instead. -/
theorem claim10_witness :
    preSaveHook false demoSettings ⟨true, ["seq"], [("seq", "MANUAL")]⟩ [] =
      (.ok (), ⟨true, ["seq"], [("seq", "null")]⟩,
       [.bdoc [("model", .bstr "Model"), ("field", .bstr "seq"), ("count", .bnull)]]) :=
  (claim10_new_doc_overwrites_manual_value demoSettings ⟨true, ["seq"], [("seq", "MANUAL")]⟩
    [] rfl).trans rfl

/-- If a stored counter document matches the filter, the one-pass update
returns the pipeline applied to the first match, and the updated document
is a member of the resulting store. -/
theorem findGo_of_find (s : Settings) :
    ∀ (st : List BVal) (r : BVal), st.find? (matchesFilter s) = some r →
      ∃ st2, findOneAndUpdateGo s st = some (applyUpdatePipeline s r, st2)
        ∧ applyUpdatePipeline s r ∈ st2 := by
  intro st
  induction st with
  | nil => intro r h; simp at h
  | cons d rest ih =>
    intro r h
    by_cases hm : matchesFilter s d = true
    · rw [List.find?_cons_of_pos _ hm] at h
      obtain rfl : d = r := by injection h
      exact ⟨applyUpdatePipeline s d :: rest, by simp [findOneAndUpdateGo, hm],
        List.mem_cons_self _ _⟩
    · rw [List.find?_cons_of_neg _ hm] at h
      obtain ⟨st2, hgo, hmem⟩ := ih r h
      refine ⟨d :: st2, ?_, List.mem_cons_of_mem _ hmem⟩
      simp [findOneAndUpdateGo, hm, hgo]

/-- C9 (amended): for a counter record holding a numeric count `c`, an
allocation with a non-negative `incrementBy` stores and returns the count
`c + incrementBy ≥ c`; the post-update document is in the new store.  (The
unamended claim fails: the validator accepts a negative `incrementBy`, see
the counterexample.) -/
theorem claim9_monotone_nonneg_increment (s : Settings) (st : List BVal) (r : BVal)
    (c : Int) (hinc : 0 ≤ s.incrementBy)
    (hfind : st.find? (matchesFilter s) = some r)
    (hc : getFieldB r "count" = some (.bint c)) :
    getFieldB (findOneAndUpdate s st).1 "count" = some (.bint (c + s.incrementBy))
    ∧ c ≤ c + s.incrementBy
    ∧ (findOneAndUpdate s st).1 ∈ (findOneAndUpdate s st).2 := by
  obtain ⟨st2, hgo, hmem⟩ := findGo_of_find s st r hfind
  unfold findOneAndUpdate
  rw [hgo]
  refine ⟨?_, by omega, hmem⟩
  cases r with
  | bnull => simp [getFieldB] at hc
  | bint n => simp [getFieldB] at hc
  | bstr t => simp [getFieldB] at hc
  | bdoc fs =>
    have h1 : getFieldB (applyUpdatePipeline s (BVal.bdoc fs)) "count"
        = some (mongoAddCount (getFieldB (BVal.bdoc fs) "count") s.incrementBy) := rfl
    rw [h1, hc]
    rfl

/-- Witness for the amended C9 at a concrete record with count 5 and
incrementBy 1. -/
theorem claim9_witness :
    getFieldB
        (findOneAndUpdate demoSettings
          [.bdoc [("model", .bstr "Model"), ("field", .bstr "seq"), ("count", .bint 5)]]).1
        "count" = some (.bint (5 + 1))
    ∧ (5 : Int) ≤ 5 + 1
    ∧ (findOneAndUpdate demoSettings
          [.bdoc [("model", .bstr "Model"), ("field", .bstr "seq"), ("count", .bint 5)]]).1
        ∈ (findOneAndUpdate demoSettings
          [.bdoc [("model", .bstr "Model"), ("field", .bstr "seq"), ("count", .bint 5)]]).2 :=
  claim9_monotone_nonneg_increment demoSettings
    [.bdoc [("model", .bstr "Model"), ("field", .bstr "seq"), ("count", .bint 5)]]
    (.bdoc [("model", .bstr "Model"), ("field", .bstr "seq"), ("count", .bint 5)])
    5 (by decide) rfl rfl

/-- Raw options carrying a negative incrementBy (a plain JS number, so the
validator accepts it). -/
def rawNegIncrement : JSVal :=
  .obj [("model", .str "M"), ("field", .str "seq"), ("incrementBy", .num (-1))]

/-- The settings record resulting from `rawNegIncrement`. -/
def negSettings : Settings := ⟨"M", "seq", 0, -1, .staticStr "", .staticStr ""⟩

/-- A counter store holding count 5 for the ("M", "seq") key. -/
def negStore : List BVal :=
  [.bdoc [("model", .bstr "M"), ("field", .bstr "seq"), ("count", .bint 5)]]

/-- C9 counterexample: the option validator accepts incrementBy = -1, and
an allocation on a record with stored count 5 then stores and returns 4,
so the stored count strictly decreases — refuting the unrestricted
monotonicity claim. -/
theorem claim9_counterexample :
    parseOptions rawNegIncrement =
      .ok [("model", .str "M"), ("field", .str "seq"), ("startAt", .num 0),
           ("incrementBy", .num (-1)), ("prefix", .str ""), ("suffix", .str "")]
    ∧ getFieldB (negStore.headD .bnull) "count" = some (.bint 5)
    ∧ getFieldB (findOneAndUpdate negSettings negStore).1 "count" = some (.bint 4)
    ∧ (findOneAndUpdate negSettings negStore).2 =
        [.bdoc [("model", .bstr "M"), ("field", .bstr "seq"), ("count", .bint 4)]]
    ∧ ¬ (5 : Int) ≤ 4 :=
  ⟨rfl, rfl, rfl, rfl, by decide⟩

/-- C8: binding fails with the not-initialized error whenever the counter
model was never prepared, and — once options validate successfully — fails
with the field-conflict error whenever the schema already declares the
target field; in both failure cases no schema is produced (no field,
index, or hook is added). -/
theorem claim8_bind_errors :
    (∀ (schema : SchemaModel) (options : JSVal),
      plugin false schema options = .error .notInitialized)
    ∧ (∀ (schema : SchemaModel) (options : JSVal) (parsed : List (String × JSVal)),
        parseOptions options = .ok parsed →
        schema.paths.contains (jsPropKey (lookupJS parsed "field")) = true →
        plugin true schema options =
          .error (.fieldConflict (jsPropKey (lookupJS parsed "field")))) := by
  constructor
  · intro schema options
    rfl
  · intro schema options parsed hp hc
    unfold plugin
    rw [hp]
    have hm : jsPropKey (lookupJS parsed "field") ∈ schema.paths := by simpa using hc
    simp [hm]

/-- Witness for C8: an uninitialized bind fails, and a bind onto a schema
already declaring "seq" fails with the field conflict. -/
theorem claim8_witness :
    plugin false ⟨["name"], 0, []⟩ (.obj [("model", .str "M"), ("field", .str "seq")]) =
      .error .notInitialized
    ∧ plugin true ⟨["seq"], 0, []⟩ (.obj [("model", .str "M"), ("field", .str "seq")]) =
      .error (.fieldConflict "seq") :=
  ⟨claim8_bind_errors.1 ⟨["name"], 0, []⟩ (.obj [("model", .str "M"), ("field", .str "seq")]),
   claim8_bind_errors.2 ⟨["seq"], 0, []⟩ (.obj [("model", .str "M"), ("field", .str "seq")])
     [("model", .str "M"), ("field", .str "seq"), ("startAt", .num 0),
      ("incrementBy", .num 1), ("prefix", .str ""), ("suffix", .str "")]
     rfl rfl⟩

/-- The object fields of a JS value (empty for non-objects). -/
def objFields : JSVal → List (String × JSVal)
  | .obj fs => fs
  | _ => []

/-- The failure condition of the claim, transcribed from its wording:
options is not a non-null object, a required key (model, field) is absent,
the supplied field value equals the reserved identity field "_id", or a
supplied value fails its declared type predicate (model/field: string;
startAt/incrementBy: number; prefix/suffix: string or callable). -/
def claimedConfigFailure (options : JSVal) : Bool :=
  match options with
  | .obj fields =>
      !hasKey fields "model" || !hasKey fields "field"
      || (!isUndefJS (lookupJS fields "field") && jsStrictEqStr (lookupJS fields "field") "_id")
      || (!isUndefJS (lookupJS fields "model")
            && !(typeofJS (lookupJS fields "model") == "string"))
      || (!isUndefJS (lookupJS fields "field")
            && !(typeofJS (lookupJS fields "field") == "string"))
      || (!isUndefJS (lookupJS fields "startAt")
            && !(typeofJS (lookupJS fields "startAt") == "number"))
      || (!isUndefJS (lookupJS fields "incrementBy")
            && !(typeofJS (lookupJS fields "incrementBy") == "number"))
      || (!isUndefJS (lookupJS fields "prefix")
            && !(typeofJS (lookupJS fields "prefix") == "string"
                  || typeofJS (lookupJS fields "prefix") == "function"))
      || (!isUndefJS (lookupJS fields "suffix")
            && !(typeofJS (lookupJS fields "suffix") == "string"
                  || typeofJS (lookupJS fields "suffix") == "function"))
  | _ => true

/-- The validation loop fails exactly when some definition entry has a
missing required key or a supplied value failing its validator. -/
theorem parseLoop_error_iff (fields : List (String × JSVal)) :
    ∀ defs : List (String × OptionDef),
      (∃ e, parseLoop fields defs = .error e) ↔
        defs.any (fun kd =>
          (kd.2.required && !hasKey fields kd.1)
          || (!isUndefJS (lookupJS fields kd.1)
                && !kd.2.validate (lookupJS fields kd.1))) = true := by
  intro defs
  induction defs with
  | nil => simp [parseLoop]
  | cons kd rest ih =>
    by_cases h1 : (kd.2.required && !hasKey fields kd.1) = true
    · simp [parseLoop, h1]
    · by_cases h2 : isUndefJS (lookupJS fields kd.1) = true
      · cases hr : parseLoop fields rest with
        | ok p => simp [parseLoop, h1, h2, hr, ← ih]
        | error e => simp [parseLoop, h1, h2, hr, ← ih]
      · by_cases h3 : kd.2.validate (lookupJS fields kd.1) = true
        · cases hr : parseLoop fields rest with
          | ok p => simp [parseLoop, h1, h2, h3, hr, ← ih]
          | error e => simp [parseLoop, h1, h2, h3, hr, ← ih]
        · simp [parseLoop, h1, h2, h3]

/-- On success the validation loop returns, in definition order, the
supplied value for each supplied key and the declared default otherwise. -/
theorem parseLoop_ok_eq (fields : List (String × JSVal)) :
    ∀ (defs : List (String × OptionDef)) (p : List (String × JSVal)),
      parseLoop fields defs = .ok p →
      p = defs.map (fun kd =>
        (kd.1, if isUndefJS (lookupJS fields kd.1) then kd.2.dflt
               else lookupJS fields kd.1)) := by
  intro defs
  induction defs with
  | nil =>
    intro p h
    simp [parseLoop] at h
    simp [← h]
  | cons kd rest ih =>
    intro p h
    unfold parseLoop at h
    by_cases h1 : (kd.2.required && !hasKey fields kd.1) = true
    · simp [h1] at h
    · rw [if_neg h1] at h
      by_cases h2 : isUndefJS (lookupJS fields kd.1) = true
      · simp only [h2, Bool.not_true, Bool.false_eq_true, if_false] at h
        cases hr : parseLoop fields rest with
        | ok q =>
          rw [hr] at h
          injection h with h
          subst h
          simp [ih q hr, h2]
        | error e => rw [hr] at h; exact absurd h (by simp)
      · by_cases h3 : kd.2.validate (lookupJS fields kd.1) = true
        · simp only [h2, h3, Bool.not_false, Bool.not_true, if_true, Bool.false_eq_true,
            if_false] at h
          cases hr : parseLoop fields rest with
          | ok q =>
            rw [hr] at h
            injection h with h
            subst h
            simp [ih q hr, h2]
          | error e => rw [hr] at h; exact absurd h (by simp)
        · simp [h2, h3] at h

/-- C6: `parseOptions` fails exactly under the claim's conditions (not a
non-null object; a required key absent; a supplied field equal to "_id"; a
supplied value failing its declared type predicate), and on success
returns, per definition entry, the supplied value or the declared default
for a missing optional key. -/
theorem claim6_parse_options_contract (options : JSVal) :
    ((∃ e, parseOptions options = .error e) ↔ claimedConfigFailure options = true)
    ∧ (∀ p, parseOptions options = .ok p →
        p = optionDefinitions.map (fun kd =>
          (kd.1, if isUndefJS (lookupJS (objFields options) kd.1) then kd.2.dflt
                 else lookupJS (objFields options) kd.1))) := by
  cases options with
  | obj fields =>
    refine ⟨?_, fun p h => parseLoop_ok_eq fields optionDefinitions p h⟩
    rw [show parseOptions (.obj fields) = parseLoop fields optionDefinitions from rfl]
    rw [parseLoop_error_iff fields optionDefinitions]
    have hfld : ((typeofJS (lookupJS fields "field") == "string"
          && !jsStrictEqStr (lookupJS fields "field") "_id") = false) ↔
        ((typeofJS (lookupJS fields "field") == "string") = false
          ∨ jsStrictEqStr (lookupJS fields "field") "_id" = true) := by
      cases h1 : (typeofJS (lookupJS fields "field") == "string") <;>
        cases h2 : jsStrictEqStr (lookupJS fields "field") "_id" <;> simp
    simp only [claimedConfigFailure, optionDefinitions, List.any_cons, List.any_nil,
      Bool.or_false, Bool.true_and, Bool.false_and, Bool.false_or,
      Bool.or_eq_true, Bool.and_eq_true, Bool.not_eq_true']
    constructor
    · rintro ((hKm | ⟨hum, hstrm⟩)
        | ((hKf | ⟨huf, hcomb⟩)
          | (⟨hus, hnums⟩ | ⟨hui, hnumi⟩ | ⟨hup, hstrp⟩ | ⟨huu, hstru⟩)))
      · simp [hKm]
      · simp [hum, hstrm]
      · simp [hKf]
      · rcases hfld.mp hcomb with hstrf | hid
        · simp [huf, hstrf]
        · simp [huf, hid]
      · simp [hus, hnums]
      · simp [hui, hnumi]
      · simp [hup, hstrp]
      · simp [huu, hstru]
    · rintro ((((((((hKm | hKf) | ⟨huf, hid⟩) | ⟨hum, hstrm⟩) | ⟨huf2, hstrf⟩) |
        ⟨hus, hnums⟩) | ⟨hui, hnumi⟩) | ⟨hup, hstrp⟩) | ⟨huu, hstru⟩)
      · simp [hKm]
      · simp [hKf]
      · simp [huf, hid]
      · simp [hum, hstrm]
      · simp [huf2, hstrf]
      · simp [hus, hnums]
      · simp [hui, hnumi]
      · simp [hup, hstrp]
      · simp [huu, hstru]
  | undefVal =>
    exact ⟨by simp [parseOptions, claimedConfigFailure],
      fun p h => by simp [parseOptions] at h⟩
  | jsnull =>
    exact ⟨by simp [parseOptions, claimedConfigFailure],
      fun p h => by simp [parseOptions] at h⟩
  | num n =>
    exact ⟨by simp [parseOptions, claimedConfigFailure],
      fun p h => by simp [parseOptions] at h⟩
  | str s =>
    exact ⟨by simp [parseOptions, claimedConfigFailure],
      fun p h => by simp [parseOptions] at h⟩
  | boolean b =>
    exact ⟨by simp [parseOptions, claimedConfigFailure],
      fun p h => by simp [parseOptions] at h⟩
  | func f =>
    exact ⟨by simp [parseOptions, claimedConfigFailure],
      fun p h => by simp [parseOptions] at h⟩

/-- Well-formed raw options: model "M", field "seq", optionals omitted. -/
def okOptions : JSVal := .obj [("model", .str "M"), ("field", .str "seq")]

/-- Raw options whose supplied model is a number, failing its type
predicate. -/
def badOptions : JSVal := .obj [("model", .num 3), ("field", .str "seq")]

/-- Witness for C6: the success clause at `okOptions` (defaults filled in
definition order) and the failure clause at `badOptions`. -/
theorem claim6_witness :
    (optionDefinitions.map (fun kd =>
        (kd.1, if isUndefJS (lookupJS (objFields okOptions) kd.1) then kd.2.dflt
               else lookupJS (objFields okOptions) kd.1))
      = [("model", .str "M"), ("field", .str "seq"), ("startAt", .num 0),
         ("incrementBy", .num 1), ("prefix", .str ""), ("suffix", .str "")])
    ∧ (∃ e, parseOptions badOptions = .error e) :=
  ⟨((claim6_parse_options_contract okOptions).2
      [("model", .str "M"), ("field", .str "seq"), ("startAt", .num 0),
       ("incrementBy", .num 1), ("prefix", .str ""), ("suffix", .str "")] rfl).symm,
   (claim6_parse_options_contract badOptions).1.mpr rfl⟩
